import Mathlib

/-!
Shallow embedding of the agritech-engine decision/learning core
(src/core/regret_engine.py, src/core/policy_engine.py,
src/core/rl_engine.py, src/core/decision_engine.py and the /feedback
endpoint of src/api/app.py), with theorems settling the spec claims.

Numeric sensor fields are modelled as rationals (ℚ); Python dict rows
become structures; the external Supabase store is modelled as an explicit
table (list of rows) threaded through the functions, and each store call
carries an explicit success flag, since the Python client raises an
exception on failure and none of the embedded functions catch exceptions
(failure is propagated through `Except`).
-/

namespace Agritech

/-- The per-decision sensor input (the `data` dict with farm_data.csv
fields used by the core engines). -/
structure FarmData where
  crop : String
  growth_stage : String
  soil_moisture_pct : ℚ
  rainfall_mm : ℚ
  disease_risk : String
  pest_risk : String
deriving DecidableEq, Repr

/-! ## Regret engine (src/core/regret_engine.py) -/

/-- `calculate_regret` from src/core/regret_engine.py, with the
adjustments applied in the source order: base 1.0, the three additive
penalties, then the crop multipliers, then the disease-risk addition. -/
def calculate_regret (action_taken actual_outcome : ℕ) (data : FarmData) : ℚ :=
  if action_taken = actual_outcome then 0
  else
    let regret : ℚ := 1
    let regret := if action_taken = 0 ∧ data.soil_moisture_pct < 40 then regret + 1.5 else regret
    let regret := if action_taken = 1 ∧ data.soil_moisture_pct > 70 then regret + 1.5 else regret
    let regret := if action_taken = 1 ∧ data.rainfall_mm ≥ 80 then regret + 2.0 else regret
    let regret := if data.crop = "pulses" then regret * 1.3 else regret
    let regret := if data.crop = "rice" then regret * 0.7 else regret
    let regret := if data.disease_risk = "high" ∧ action_taken = 1 then regret + 1.0 else regret
    regret

/-- Indicator of the missed-irrigation penalty condition. -/
def missedIrrigationCond (action_taken : ℕ) (data : FarmData) : Prop :=
  action_taken = 0 ∧ data.soil_moisture_pct < 40

/-- Indicator of the unnecessary-irrigation (high moisture) penalty condition. -/
def highMoistureCond (action_taken : ℕ) (data : FarmData) : Prop :=
  action_taken = 1 ∧ data.soil_moisture_pct > 70

/-- Indicator of the irrigated-despite-rain penalty condition. -/
def rainPenaltyCond (action_taken : ℕ) (data : FarmData) : Prop :=
  action_taken = 1 ∧ data.rainfall_mm ≥ 80

/-- Indicator of the disease-risk penalty condition. -/
def diseasePenaltyCond (action_taken : ℕ) (data : FarmData) : Prop :=
  data.disease_risk = "high" ∧ action_taken = 1

instance (a : ℕ) (d : FarmData) : Decidable (missedIrrigationCond a d) := by
  unfold missedIrrigationCond; infer_instance

instance (a : ℕ) (d : FarmData) : Decidable (highMoistureCond a d) := by
  unfold highMoistureCond; infer_instance

instance (a : ℕ) (d : FarmData) : Decidable (rainPenaltyCond a d) := by
  unfold rainPenaltyCond; infer_instance

instance (a : ℕ) (d : FarmData) : Decidable (diseasePenaltyCond a d) := by
  unfold diseasePenaltyCond; infer_instance

/-- Rational indicator of a decidable proposition. -/
def ind (p : Prop) [Decidable p] : ℚ := if p then 1 else 0

/-- The pulses multiplier as applied by the source. -/
def pulsesMult (data : FarmData) : ℚ := if data.crop = "pulses" then 1.3 else 1

/-- The rice multiplier as applied by the source. -/
def riceMult (data : FarmData) : ℚ := if data.crop = "rice" then 0.7 else 1

/-- The reward derivation of the /feedback endpoint
(src/api/app.py, `reward = 10.0 - (regret_score * 5.0)`). -/
def feedback_reward (regret_score : ℚ) : ℚ := 10.0 - regret_score * 5.0

/-- The data of end-to-end scenario 3 of the spec. -/
def scenario3Data : FarmData :=
  ⟨"pulses", "tillering", 75, 85, "high", "low"⟩

/-! ## Policy engine (src/core/policy_engine.py)

The Supabase insert performed by `_log_penalty` raises an exception on
failure and `policy_engine.py` contains no exception handler, so store
failure is modelled by an explicit `sink_ok` flag and propagated through
`Except`. The policy_penalties table is the list of appended records. -/

/-- A row of the policy_penalties table as written by `_log_penalty`. -/
structure PenaltyRecord where
  data : FarmData
  action : ℕ
  allowed : Bool
  penalty_score : ℚ
  policy_rule : String
  explanation : String
deriving DecidableEq, Repr

/-- `_log_penalty` from src/core/policy_engine.py: insert a penalty row;
the insert raises (here: returns an error) when the store call fails. -/
def log_penalty (sink_ok : Bool) (log : List PenaltyRecord) (data : FarmData) (action : ℕ)
    (penalty : ℚ) (rule : String) (explanation : String) :
    Except String (List PenaltyRecord) :=
  if sink_ok then Except.ok (log ++ [⟨data, action, false, penalty, rule, explanation⟩])
  else Except.error "penalty insert failed"

/-- `is_action_allowed` from src/core/policy_engine.py, with the rules in
source order; a blocking rule first logs a penalty (whose failure
propagates) and then returns False. -/
def is_action_allowed (sink_ok : Bool) (log : List PenaltyRecord) (action : ℕ)
    (data : FarmData) : Except String (Bool × List PenaltyRecord) :=
  if action = 0 then Except.ok (true, log)
  else if data.rainfall_mm ≥ 80 then
    (log_penalty sink_ok log data action 2.0 "RAIN_BLOCK_RULE"
      "Heavy rainfall detected; irrigation blocked.").map (fun l => (false, l))
  else if data.soil_moisture_pct ≥ 70 then
    (log_penalty sink_ok log data action 1.5 "HIGH_SOIL_MOISTURE"
      "Soil moisture already sufficient.").map (fun l => (false, l))
  else if data.crop = "pulses" ∧ data.soil_moisture_pct > 60 then
    (log_penalty sink_ok log data action 2.5 "PULSES_WATERLOGGING_RULE"
      "Pulses are sensitive to waterlogging.").map (fun l => (false, l))
  else if data.disease_risk = "high" then
    (log_penalty sink_ok log data action 3.0 "DISEASE_IRRIGATION_BLOCK"
      "High disease risk; irrigation may increase spread.").map (fun l => (false, l))
  else if data.crop = "wheat" ∧ data.soil_moisture_pct > 65 then
    (log_penalty sink_ok log data action 1.2 "WHEAT_OVER_IRRIGATION"
      "Soil moisture above safe limit for wheat.").map (fun l => (false, l))
  else if data.crop = "maize" ∧ data.soil_moisture_pct > 65 then
    (log_penalty sink_ok log data action 1.2 "MAIZE_OVER_IRRIGATION"
      "Soil moisture above safe limit for maize.").map (fun l => (false, l))
  else if data.crop = "sugarcane" ∧ data.soil_moisture_pct > 80 then
    (log_penalty sink_ok log data action 1.0 "SUGARCANE_EXCESS_MOISTURE"
      "Sugarcane does not require irrigation at this moisture.").map (fun l => (false, l))
  else Except.ok (true, log)

/-- The blocking condition of the Policy Gate decision table, transcribed
from the claim/spec wording (disjunction of the seven rules). -/
def blockCond (d : FarmData) : Prop :=
  d.rainfall_mm ≥ 80 ∨ d.soil_moisture_pct ≥ 70
    ∨ (d.crop = "pulses" ∧ d.soil_moisture_pct > 60)
    ∨ d.disease_risk = "high"
    ∨ (d.crop = "wheat" ∧ d.soil_moisture_pct > 65)
    ∨ (d.crop = "maize" ∧ d.soil_moisture_pct > 65)
    ∨ (d.crop = "sugarcane" ∧ d.soil_moisture_pct > 80)

instance (d : FarmData) : Decidable (blockCond d) := by
  unfold blockCond; infer_instance

/-- The penalty of the first matching rule, transcribed from the
claim/spec wording of the fixed-order decision table. -/
def firstRulePenalty (d : FarmData) : ℚ :=
  if d.rainfall_mm ≥ 80 then 2.0
  else if d.soil_moisture_pct ≥ 70 then 1.5
  else if d.crop = "pulses" ∧ d.soil_moisture_pct > 60 then 2.5
  else if d.disease_risk = "high" then 3.0
  else if d.crop = "wheat" ∧ d.soil_moisture_pct > 65 then 1.2
  else if d.crop = "maize" ∧ d.soil_moisture_pct > 65 then 1.2
  else if d.crop = "sugarcane" ∧ d.soil_moisture_pct > 80 then 1.0
  else 0

/-! ## RL engine (src/core/rl_engine.py)

The rl_q_table is modelled as a list of rows; the Supabase select in
`fetch_q_values` raises on failure (no handler in rl_engine.py), modelled
by a `read_ok` flag and `Except`. Exploration randomness is modelled by an
explicit `explore` draw (whether `random.random() < EPSILON`) and the
uniformly drawn `random_action`. -/

/-- Hyperparameter ALPHA from src/core/rl_engine.py. -/
def ALPHA : ℚ := 0.1

/-- Hyperparameter GAMMA from src/core/rl_engine.py. -/
def GAMMA : ℚ := 0.9

/-- `discretize_soil_moisture` from src/core/rl_engine.py. -/
def discretize_soil_moisture (value : ℚ) : String :=
  if value < 40 then "low" else if value < 65 then "medium" else "high"

/-- `discretize_rainfall` from src/core/rl_engine.py. -/
def discretize_rainfall (value : ℚ) : String :=
  if value < 30 then "low" else if value < 80 then "medium" else "high"

/-- The discretized RL state key built by `get_state`. -/
structure RLState where
  soil_moisture_level : String
  rainfall_level : String
  crop : String
  growth_stage : String
  disease_risk : String
deriving DecidableEq, Repr

/-- `get_state` from src/core/rl_engine.py. -/
def get_state (data : FarmData) : RLState :=
  ⟨discretize_soil_moisture data.soil_moisture_pct,
   discretize_rainfall data.rainfall_mm,
   data.crop, data.growth_stage, data.disease_risk⟩

/-- A row of the rl_q_table (full key: the five state fields plus
action). -/
structure QRow where
  state : RLState
  action : ℕ
  q_value : ℚ
  visit_count : ℕ
deriving DecidableEq, Repr

/-- One step of the Python loop `q_values[row["action"]] = row["q_value"]`
over the dict initialised to {0: 0.0, 1: 0.0}, projected to the values at
keys 0 and 1 (a row with another action only adds an unrelated key). -/
def applyRow (qv : ℚ × ℚ) (r : QRow) : ℚ × ℚ :=
  if r.action = 0 then (r.q_value, qv.2)
  else if r.action = 1 then (qv.1, r.q_value)
  else qv

/-- The per-action Q-values computed by a successful `fetch_q_values`
read: select the rows matching all five state fields and overwrite the
all-zero dict with each row in order. -/
def fetch_q (tbl : List QRow) (s : RLState) : ℚ × ℚ :=
  (tbl.filter (fun r => r.state == s)).foldl applyRow (0, 0)

/-- `fetch_q_values` from src/core/rl_engine.py: the select raises on
store failure and nothing in the function catches it. -/
def fetch_q_values (read_ok : Bool) (tbl : List QRow) (s : RLState) :
    Except String (ℚ × ℚ) :=
  if read_ok then Except.ok (fetch_q tbl s) else Except.error "q-table read failed"

/-- Python `max(iterable, key=...)` over an association list: the first
element is the initial best and a later element replaces it only when its
value is strictly greater, so the first maximum is kept. The list is
never empty at the call site (the dict always has keys 0 and 1). -/
def py_max_first (l : List (ℕ × ℚ)) : ℕ :=
  match l with
  | [] => 0
  | kv :: rest => (rest.foldl (fun best x => if x.2 > best.2 then x else best) kv).1

/-- `choose_action` from src/core/rl_engine.py: epsilon-greedy; on the
exploitation branch, `max(q_values, key=q_values.get)` over the dict
{0: q0, 1: q1} in insertion order. -/
def choose_action (explore : Bool) (random_action : ℕ) (read_ok : Bool)
    (tbl : List QRow) (state : RLState) : Except String ℕ :=
  if explore then Except.ok random_action
  else (fetch_q_values read_ok tbl state).map
    (fun qv => py_max_first [(0, qv.1), (1, qv.2)])

/-- Dict access `fetch_q_values(state)[action]` for action ∈ {0, 1}. -/
def qget (qv : ℚ × ℚ) (action : ℕ) : ℚ :=
  if action = 0 then qv.1 else qv.2

/-- The Supabase upsert keyed by all five state fields plus action
(`on_conflict`): replace the matching row if one exists, else append. -/
def upsert (tbl : List QRow) (r : QRow) : List QRow :=
  if tbl.any (fun x => x.state == r.state && x.action == r.action) then
    tbl.map (fun x => if x.state = r.state ∧ x.action = r.action then r else x)
  else tbl ++ [r]

/-- `update_q_table` from src/core/rl_engine.py: full Q-learning update
when a next_state is provided, simple reward-based update otherwise; the
new row is upserted with visit_count 1. Store reads are taken on their
success path (the claims about this function do not involve read
failure). -/
def update_q_table (tbl : List QRow) (state : RLState) (action : ℕ) (reward : ℚ)
    (next_state : Option RLState) : List QRow :=
  let current_q := qget (fetch_q tbl state) action
  let new_q :=
    match next_state with
    | some ns =>
        current_q + ALPHA * (reward + GAMMA * max (fetch_q tbl ns).1 (fetch_q tbl ns).2
          - current_q)
    | none => current_q + ALPHA * reward
  upsert tbl ⟨state, action, new_q, 1⟩

/-- The /feedback endpoint's learning step (src/api/app.py lines
242-256): compute regret and reward, build the state, and call
`update_q_table` with the current state passed as next_state (the fourth
positional argument is `state`). -/
def feedback_rl_update (tbl : List QRow) (data : FarmData)
    (final_decision actual_outcome : ℕ) : List QRow :=
  let regret_score := calculate_regret final_decision actual_outcome data
  let reward := feedback_reward regret_score
  let state := get_state data
  update_q_table tbl state final_decision reward (some state)

/-- Concrete /feedback input used to exhibit the lookahead term: wheat at
30% moisture, no rain, low disease risk. -/
def c2Data : FarmData := ⟨"wheat", "cri", 30, 0, "low", "low"⟩

/-- A stored Q-table holding q_value 10 for action 0 in the state of
`c2Data`. -/
def c2Table : List QRow := [⟨⟨"low", "low", "wheat", "cri", "low"⟩, 0, 10, 1⟩]

/-- One RL-updater call via `update_q_table` as it appears in a sequence
(state, action, reward, optional next state). -/
structure UpdateCall where
  state : RLState
  action : ℕ
  reward : ℚ
  next_state : Option RLState

/-- Folding a sequence of `update_q_table` calls over a table. -/
def apply_updates (tbl : List QRow) (us : List UpdateCall) : List QRow :=
  us.foldl (fun t u => update_q_table t u.state u.action u.reward u.next_state) tbl

/-! ## Decision engine (src/core/decision_engine.py)

`decide_action` first obtains the RL action via `choose_action` (which
reads the store), then applies the rule-based overrides in source order;
when the growth stage is critical but the Policy Gate blocks the RL
action, control falls through to the plain RL step, which consults the
Policy Gate a second time. -/

/-- The final decision and reason returned by `decide_action`. -/
structure DecisionResult where
  decision : ℕ
  reason : String
deriving DecidableEq, Repr

/-- The `critical_stages` list from src/core/decision_engine.py. -/
def critical_stages : List String :=
  ["transplanting", "tillering", "panicle_initiation", "flowering", "cri",
   "tasseling", "silking"]

/-- `decide_action` from src/core/decision_engine.py. -/
def decide_action (explore : Bool) (random_action : ℕ) (read_ok sink_ok : Bool)
    (tbl : List QRow) (log : List PenaltyRecord) (ml_prediction : ℕ)
    (data : FarmData) : Except String (DecisionResult × List PenaltyRecord) :=
  match choose_action explore random_action read_ok tbl (get_state data) with
  | Except.error e => Except.error e
  | Except.ok rl_action =>
    if data.rainfall_mm ≥ 80 then Except.ok (⟨0, "Recent heavy rainfall detected"⟩, log)
    else if data.soil_moisture_pct ≥ 65 then
      Except.ok (⟨0, "Soil moisture is sufficient"⟩, log)
    else if data.crop = "pulses" ∧ data.soil_moisture_pct > 60 then
      Except.ok (⟨0, "Pulses are sensitive to waterlogging"⟩, log)
    else if data.growth_stage ∈ critical_stages then
      match is_action_allowed sink_ok log rl_action data with
      | Except.error e => Except.error e
      | Except.ok (true, log1) =>
          Except.ok (⟨rl_action, "Critical growth stage: " ++ data.growth_stage⟩, log1)
      | Except.ok (false, log1) =>
          match is_action_allowed sink_ok log1 rl_action data with
          | Except.error e => Except.error e
          | Except.ok (true, log2) =>
              Except.ok (⟨rl_action, "RL policy selected action"⟩, log2)
          | Except.ok (false, log2) =>
              Except.ok (⟨ml_prediction, "Fallback to ML prediction"⟩, log2)
    else
      match is_action_allowed sink_ok log rl_action data with
      | Except.error e => Except.error e
      | Except.ok (true, log1) =>
          Except.ok (⟨rl_action, "RL policy selected action"⟩, log1)
      | Except.ok (false, log1) =>
          Except.ok (⟨ml_prediction, "Fallback to ML prediction"⟩, log1)

/-- Whether the substring "waterlogging" occurs in a string. -/
def mentionsWaterlogging (s : String) : Bool :=
  (List.range (s.toList.length + 1)).any
    (fun i => (s.toList.drop i).take "waterlogging".toList.length = "waterlogging".toList)

/-- Closed form of `calculate_regret` on a wrong decision: the crop
multipliers scale the base and the moisture/rainfall additions, and the
disease-risk addition is applied after the multiplication. -/
theorem calculate_regret_closed_form (a o : ℕ) (d : FarmData) (h : a ≠ o) :
    calculate_regret a o d =
      (1 + 1.5 * ind (missedIrrigationCond a d) + 1.5 * ind (highMoistureCond a d)
          + 2.0 * ind (rainPenaltyCond a d)) * pulsesMult d * riceMult d
        + 1.0 * ind (diseasePenaltyCond a d) := by
  unfold calculate_regret missedIrrigationCond highMoistureCond rainPenaltyCond
    diseasePenaltyCond ind pulsesMult riceMult
  simp only [if_neg h]
  split_ifs <;> ring

/-- On the scenario-3 input the source computes regret 6.85, because the
pulses multiplier is applied before the disease-risk addition. -/
theorem scenario3_regret : calculate_regret 1 0 scenario3Data = 6.85 := by
  norm_num [calculate_regret, scenario3Data]
  rw [if_neg (by decide : ¬ ("pulses" : String) = "rice")]
  norm_num

/-- The /feedback reward derived from the scenario-3 regret. -/
theorem scenario3_reward : feedback_reward (calculate_regret 1 0 scenario3Data) = -24.25 := by
  rw [scenario3_regret]
  norm_num [feedback_reward]

/-- Monotonicity of the indicator in the proposition. -/
theorem ind_le_ind (p q : Prop) [Decidable p] [Decidable q] (h : p → q) :
    ind p ≤ ind q := by
  unfold ind
  split_ifs with hp hq
  · exact le_refl 1
  · exact absurd (h hp) hq
  · norm_num
  · exact le_refl 0

/-- The pulses multiplier is positive. -/
theorem pulsesMult_pos (d : FarmData) : 0 < pulsesMult d := by
  unfold pulsesMult; split_ifs <;> norm_num

/-- The rice multiplier is positive. -/
theorem riceMult_pos (d : FarmData) : 0 < riceMult d := by
  unfold riceMult; split_ifs <;> norm_num

/-- C1: the claim as stated is false on the code. On the scenario-3 input
(action_taken=1, actual_outcome=0, crop=pulses, soil_moisture_pct=75,
rainfall_mm=85, disease_risk=high) the regret is not 7.15 and the derived
feedback reward is not −25.75, because `calculate_regret` applies the
crop multipliers before the disease-risk addition, not after all
additions. -/
theorem claim_C1_counterexample :
    calculate_regret 1 0 scenario3Data ≠ 7.15 ∧
      feedback_reward (calculate_regret 1 0 scenario3Data) ≠ -25.75 := by
  rw [scenario3_regret]
  norm_num [feedback_reward]

/-- C1 (amended): for a wrong decision, `calculate_regret` returns the
base 1.0 plus the moisture and rainfall additive penalties, multiplied by
the crop multipliers (×1.3 pulses, ×0.7 rice), and the disease-risk
penalty +1.0 is added after the multiplication — so the listed order does
matter; in particular on the scenario-3 input the regret equals 6.85 and
the derived feedback reward 10.0 − regret·5.0 equals −24.25. -/
theorem claim_C1 :
    (∀ a o : ℕ, ∀ d : FarmData, a ≠ o →
      calculate_regret a o d =
        (1 + 1.5 * ind (missedIrrigationCond a d) + 1.5 * ind (highMoistureCond a d)
            + 2.0 * ind (rainPenaltyCond a d)) * pulsesMult d * riceMult d
          + 1.0 * ind (diseasePenaltyCond a d)) ∧
    calculate_regret 1 0 scenario3Data = 6.85 ∧
    feedback_reward (calculate_regret 1 0 scenario3Data) = -24.25 :=
  ⟨calculate_regret_closed_form, scenario3_regret, scenario3_reward⟩

/-- Witness for C1 (amended), instantiated on the scenario-3 input. -/
theorem claim_C1_witness :
    calculate_regret 1 0 scenario3Data =
      (1 + 1.5 * ind (missedIrrigationCond 1 scenario3Data)
          + 1.5 * ind (highMoistureCond 1 scenario3Data)
          + 2.0 * ind (rainPenaltyCond 1 scenario3Data)) * pulsesMult scenario3Data
          * riceMult scenario3Data
        + 1.0 * ind (diseasePenaltyCond 1 scenario3Data) :=
  claim_C1.1 1 0 scenario3Data (by norm_num)

/-- C9: `calculate_regret` is monotonically non-decreasing in the penalty
conditions. For a wrong decision, if every additive penalty condition
that holds for `d` also holds for `d'` and the crop is unchanged, the
regret for `d` is at most the regret for `d'`; in particular making one
additional condition qualify never decreases the result. -/
theorem claim_C9 (a o : ℕ) (d d' : FarmData) (h : a ≠ o)
    (hcrop : d.crop = d'.crop)
    (h1 : missedIrrigationCond a d → missedIrrigationCond a d')
    (h2 : highMoistureCond a d → highMoistureCond a d')
    (h3 : rainPenaltyCond a d → rainPenaltyCond a d')
    (h4 : diseasePenaltyCond a d → diseasePenaltyCond a d') :
    calculate_regret a o d ≤ calculate_regret a o d' := by
  have e1 : pulsesMult d = pulsesMult d' := by unfold pulsesMult; rw [hcrop]
  have e2 : riceMult d = riceMult d' := by unfold riceMult; rw [hcrop]
  rw [calculate_regret_closed_form a o d h, calculate_regret_closed_form a o d' h, e1, e2]
  have hP := (pulsesMult_pos d').le
  have hR := (riceMult_pos d').le
  have hXY : (1 + 1.5 * ind (missedIrrigationCond a d) + 1.5 * ind (highMoistureCond a d)
      + 2.0 * ind (rainPenaltyCond a d))
      ≤ (1 + 1.5 * ind (missedIrrigationCond a d') + 1.5 * ind (highMoistureCond a d')
      + 2.0 * ind (rainPenaltyCond a d')) := by
    have i1 := ind_le_ind _ _ h1
    have i2 := ind_le_ind _ _ h2
    have i3 := ind_le_ind _ _ h3
    linarith
  have hm1 := mul_le_mul_of_nonneg_right hXY hP
  have hm2 := mul_le_mul_of_nonneg_right hm1 hR
  have i4 := ind_le_ind _ _ h4
  linarith

/-- Witness for C9: raising rainfall from 0 to 85 (so the rain penalty
qualifies) with action_taken=1 never decreases the regret. -/
theorem claim_C9_witness :
    calculate_regret 1 0 ⟨"wheat", "cri", 50, 0, "low", "low"⟩
      ≤ calculate_regret 1 0 ⟨"wheat", "cri", 50, 85, "low", "low"⟩ :=
  claim_C9 1 0 ⟨"wheat", "cri", 50, 0, "low", "low"⟩ ⟨"wheat", "cri", 50, 85, "low", "low"⟩
    (by norm_num) rfl
    (fun hc => absurd hc.1 (by norm_num))
    (fun hc => ⟨hc.1, hc.2⟩)
    (fun hc => ⟨hc.1, by norm_num⟩)
    (fun hc => absurd hc.1 (by decide))

/-- A failing penalty-log insert returns the error. -/
theorem log_penalty_fail (log : List PenaltyRecord) (d : FarmData) (a : ℕ) (p : ℚ)
    (r e : String) : log_penalty false log d a p r e = Except.error "penalty insert failed" :=
  rfl

/-- A succeeding penalty-log insert appends the record. -/
theorem log_penalty_succeeds (log : List PenaltyRecord) (d : FarmData) (a : ℕ) (p : ℚ)
    (r e : String) : log_penalty true log d a p r e = Except.ok (log ++ [⟨d, a, false, p, r, e⟩]) :=
  rfl

/-- C7: action 0 is always allowed; for action 1 the gate blocks exactly
when one of the seven fixed-order rules matches, and the logged penalty
score is that of the first matching rule; otherwise action 1 is
allowed. -/
theorem claim_C7 (d : FarmData) (log : List PenaltyRecord) :
    (∀ ok : Bool, is_action_allowed ok log 0 d = Except.ok (true, log)) ∧
    (¬ blockCond d → ∀ ok : Bool, is_action_allowed ok log 1 d = Except.ok (true, log)) ∧
    (blockCond d → ∃ rec : PenaltyRecord,
      is_action_allowed true log 1 d = Except.ok (false, log ++ [rec]) ∧
      rec.penalty_score = firstRulePenalty d ∧ rec.allowed = false) := by
  refine ⟨fun ok => rfl, ?_, ?_⟩
  · intro hnb ok
    have n1 : ¬ d.rainfall_mm ≥ 80 := fun hc => hnb (Or.inl hc)
    have n2 : ¬ d.soil_moisture_pct ≥ 70 := fun hc => hnb (Or.inr (Or.inl hc))
    have n3 : ¬ (d.crop = "pulses" ∧ d.soil_moisture_pct > 60) :=
      fun hc => hnb (Or.inr (Or.inr (Or.inl hc)))
    have n4 : ¬ d.disease_risk = "high" :=
      fun hc => hnb (Or.inr (Or.inr (Or.inr (Or.inl hc))))
    have n5 : ¬ (d.crop = "wheat" ∧ d.soil_moisture_pct > 65) :=
      fun hc => hnb (Or.inr (Or.inr (Or.inr (Or.inr (Or.inl hc)))))
    have n6 : ¬ (d.crop = "maize" ∧ d.soil_moisture_pct > 65) :=
      fun hc => hnb (Or.inr (Or.inr (Or.inr (Or.inr (Or.inr (Or.inl hc))))))
    have n7 : ¬ (d.crop = "sugarcane" ∧ d.soil_moisture_pct > 80) :=
      fun hc => hnb (Or.inr (Or.inr (Or.inr (Or.inr (Or.inr (Or.inr hc))))))
    unfold is_action_allowed
    rw [if_neg one_ne_zero, if_neg n1, if_neg n2, if_neg n3, if_neg n4, if_neg n5,
      if_neg n6, if_neg n7]
  · intro hb
    unfold is_action_allowed
    rw [if_neg one_ne_zero]
    split_ifs with h1 h2 h3 h4 h5 h6 h7
    · simp only [log_penalty_succeeds]
      exact ⟨_, rfl, by simp [firstRulePenalty, h1], rfl⟩
    · simp only [log_penalty_succeeds]
      exact ⟨_, rfl, by simp [firstRulePenalty, h1, h2], rfl⟩
    · simp only [log_penalty_succeeds]
      exact ⟨_, rfl, by simp [firstRulePenalty, h1, h2, h3], rfl⟩
    · simp only [log_penalty_succeeds]
      exact ⟨_, rfl, by simp [firstRulePenalty, h1, h2, h3, h4], rfl⟩
    · simp only [log_penalty_succeeds]
      exact ⟨_, rfl, by simp [firstRulePenalty, h1, h2, h3, h4, h5], rfl⟩
    · simp only [log_penalty_succeeds]
      exact ⟨_, rfl, by simp [firstRulePenalty, h1, h2, h3, h4, h5, h6], rfl⟩
    · simp only [log_penalty_succeeds]
      exact ⟨_, rfl, by simp [firstRulePenalty, h1, h2, h3, h4, h5, h6, h7], rfl⟩
    · exact absurd hb (by unfold blockCond; tauto)

/-- Witness for C7: on crop=wheat, soil_moisture_pct=72, rainfall_mm=0,
disease_risk=low the gate blocks action 1 via the HIGH_SOIL_MOISTURE rule
(penalty 1.5) and always allows action 0. -/
theorem claim_C7_witness :
    (∀ ok : Bool,
      is_action_allowed ok [] 0 ⟨"wheat", "cri", 72, 0, "low", "low"⟩
        = Except.ok (true, [])) ∧
    (∃ rec : PenaltyRecord,
      is_action_allowed true [] 1 ⟨"wheat", "cri", 72, 0, "low", "low"⟩
        = Except.ok (false, [] ++ [rec]) ∧
      rec.penalty_score = firstRulePenalty ⟨"wheat", "cri", 72, 0, "low", "low"⟩ ∧
      rec.allowed = false) :=
  ⟨(claim_C7 ⟨"wheat", "cri", 72, 0, "low", "low"⟩ []).1,
   (claim_C7 ⟨"wheat", "cri", 72, 0, "low", "low"⟩ []).2.2
     (Or.inr (Or.inl (by norm_num)))⟩

/-- C3: the claim as stated is false on the code. On crop=wheat,
soil_moisture_pct=50, rainfall_mm=100 the RAIN_BLOCK_RULE fires, and when
the penalty-log insert fails, `is_action_allowed` propagates the failure
instead of returning False. -/
theorem claim_C3_counterexample :
    is_action_allowed false [] 1 ⟨"wheat", "cri", 50, 100, "low", "low"⟩
        = Except.error "penalty insert failed" ∧
      (is_action_allowed false [] 1 ⟨"wheat", "cri", 50, 100, "low", "low"⟩).isOk = false := by
  constructor <;> rfl

/-- C3 (amended): the penalty-log write is not fire-and-forget. For every
input on which a rule fires, a failure of the penalty-log write
propagates out of `is_action_allowed` (no veto decision is returned);
only when the write succeeds does `is_action_allowed` return False with
the penalty appended. -/
theorem claim_C3 (d : FarmData) (log : List PenaltyRecord) (hb : blockCond d) :
    is_action_allowed false log 1 d = Except.error "penalty insert failed" ∧
    ∃ rec : PenaltyRecord, is_action_allowed true log 1 d = Except.ok (false, log ++ [rec]) := by
  constructor
  · unfold is_action_allowed
    rw [if_neg one_ne_zero]
    split_ifs with h1 h2 h3 h4 h5 h6 h7
    all_goals first
      | (rw [log_penalty_fail]; rfl)
      | exact absurd hb (by unfold blockCond; tauto)
  · unfold is_action_allowed
    rw [if_neg one_ne_zero]
    split_ifs with h1 h2 h3 h4 h5 h6 h7
    all_goals first
      | (simp only [log_penalty_succeeds]; exact ⟨_, rfl⟩)
      | exact absurd hb (by unfold blockCond; tauto)

/-- Witness for C3 (amended), on the heavy-rain input that fires the
RAIN_BLOCK_RULE. -/
theorem claim_C3_witness :
    is_action_allowed false [] 1 ⟨"maize", "tasseling", 50, 90, "low", "low"⟩
        = Except.error "penalty insert failed" ∧
    ∃ rec : PenaltyRecord,
      is_action_allowed true [] 1 ⟨"maize", "tasseling", 50, 90, "low", "low"⟩
        = Except.ok (false, [] ++ [rec]) :=
  claim_C3 ⟨"maize", "tasseling", 50, 90, "low", "low"⟩ [] (Or.inl (by norm_num))

/-- Folding rows none of which has action 0 leaves the value at key 0
unchanged. -/
theorem foldl_applyRow_fst (l : List QRow) (qv : ℚ × ℚ)
    (h : ∀ r ∈ l, r.action ≠ 0) : (l.foldl applyRow qv).1 = qv.1 := by
  induction l generalizing qv with
  | nil => rfl
  | cons r rest ih =>
    rw [List.foldl_cons, ih _ (fun x hx => h x (List.mem_cons_of_mem _ hx))]
    have hr : r.action ≠ 0 := h r (List.mem_cons_self _ _)
    unfold applyRow
    rw [if_neg hr]
    split_ifs <;> rfl

/-- Folding rows none of which has action 1 leaves the value at key 1
unchanged. -/
theorem foldl_applyRow_snd (l : List QRow) (qv : ℚ × ℚ)
    (h : ∀ r ∈ l, r.action ≠ 1) : (l.foldl applyRow qv).2 = qv.2 := by
  induction l generalizing qv with
  | nil => rfl
  | cons r rest ih =>
    rw [List.foldl_cons, ih _ (fun x hx => h x (List.mem_cons_of_mem _ hx))]
    have hr : r.action ≠ 1 := h r (List.mem_cons_self _ _)
    unfold applyRow
    split_ifs with h0
    · rfl
    · rfl

/-- C4: the claim as stated is false on the code. On a failing store
read, `fetch_q_values` propagates the failure instead of returning
all-zero Q-values. -/
theorem claim_C4_counterexample :
    fetch_q_values false [] ⟨"low", "low", "wheat", "cri", "low"⟩
        = Except.error "q-table read failed" ∧
      fetch_q_values false [] ⟨"low", "low", "wheat", "cri", "low"⟩
        ≠ Except.ok ((0 : ℚ), (0 : ℚ)) :=
  ⟨rfl, by simp [fetch_q_values]⟩

/-- C4 (amended): on a successful read, `fetch_q_values` returns a value
for each action in {0,1}, defaulting absent entries to 0.0; on a store
read failure it raises (the error propagates) rather than returning
all-zero Q-values. -/
theorem claim_C4 (tbl : List QRow) (s : RLState) :
    fetch_q_values true tbl s = Except.ok (fetch_q tbl s) ∧
    fetch_q_values false tbl s = Except.error "q-table read failed" ∧
    ((∀ r ∈ tbl, r.state = s → r.action ≠ 0) → (fetch_q tbl s).1 = 0) ∧
    ((∀ r ∈ tbl, r.state = s → r.action ≠ 1) → (fetch_q tbl s).2 = 0) := by
  refine ⟨rfl, rfl, ?_, ?_⟩
  · intro h
    unfold fetch_q
    apply foldl_applyRow_fst
    intro r hr
    rw [List.mem_filter] at hr
    exact h r hr.1 (by simpa using hr.2)
  · intro h
    unfold fetch_q
    apply foldl_applyRow_snd
    intro r hr
    rw [List.mem_filter] at hr
    exact h r hr.1 (by simpa using hr.2)

/-- Witness for C4 (amended), on the empty table where both actions are
absent. -/
theorem claim_C4_witness :
    fetch_q_values true [] ⟨"medium", "medium", "rice", "tillering", "low"⟩
        = Except.ok (fetch_q [] ⟨"medium", "medium", "rice", "tillering", "low"⟩) ∧
    fetch_q_values false [] ⟨"medium", "medium", "rice", "tillering", "low"⟩
        = Except.error "q-table read failed" ∧
    (fetch_q [] ⟨"medium", "medium", "rice", "tillering", "low"⟩).1 = 0 ∧
    (fetch_q [] ⟨"medium", "medium", "rice", "tillering", "low"⟩).2 = 0 :=
  ⟨(claim_C4 [] ⟨"medium", "medium", "rice", "tillering", "low"⟩).1,
   (claim_C4 [] ⟨"medium", "medium", "rice", "tillering", "low"⟩).2.1,
   (claim_C4 [] ⟨"medium", "medium", "rice", "tillering", "low"⟩).2.2.1 (by simp),
   (claim_C4 [] ⟨"medium", "medium", "rice", "tillering", "low"⟩).2.2.2 (by simp)⟩

/-- On the exploitation branch with a successful read, `choose_action`
returns 1 exactly when the stored Q-value of action 1 strictly exceeds
that of action 0 (Python max keeps the first maximum). -/
theorem choose_action_exploit (r : ℕ) (tbl : List QRow) (s : RLState) :
    choose_action false r true tbl s =
      Except.ok (if (fetch_q tbl s).2 > (fetch_q tbl s).1 then 1 else 0) := by
  unfold choose_action fetch_q_values py_max_first
  simp [Except.map, apply_ite]

/-- C8: with exploration disabled, `choose_action` is deterministic (two
calls with different random draws agree against the same stored
Q-values), returns the first-maximum argmax with action 0 evaluated
before action 1, and resolves a tie Q[0] = Q[1] to action 0. -/
theorem claim_C8 (tbl : List QRow) (s : RLState) (r r' : ℕ) :
    choose_action false r true tbl s = choose_action false r' true tbl s ∧
    choose_action false r true tbl s =
      Except.ok (if (fetch_q tbl s).2 > (fetch_q tbl s).1 then 1 else 0) ∧
    ((fetch_q tbl s).1 = (fetch_q tbl s).2 →
      choose_action false r true tbl s = Except.ok 0) := by
  refine ⟨rfl, choose_action_exploit r tbl s, ?_⟩
  intro h
  rw [choose_action_exploit r tbl s, h]
  simp

/-- Witness for C8: on the empty table the Q-values tie at zero and the
tie resolves to action 0. -/
theorem claim_C8_witness :
    choose_action false 0 true [] ⟨"low", "low", "rice", "cri", "low"⟩ = Except.ok 0 :=
  (claim_C8 [] ⟨"low", "low", "rice", "cri", "low"⟩ 0 1).2.2 rfl

/-- Equation for the /feedback learning step: it upserts the row carrying
the full-lookahead update with next_state equal to the current state. -/
theorem feedback_rl_update_eq (tbl : List QRow) (data : FarmData) (fd ao : ℕ) :
    feedback_rl_update tbl data fd ao =
      upsert tbl ⟨get_state data, fd,
        qget (fetch_q tbl (get_state data)) fd
          + ALPHA * (feedback_reward (calculate_regret fd ao data)
            + GAMMA * max (fetch_q tbl (get_state data)).1 (fetch_q tbl (get_state data)).2
            - qget (fetch_q tbl (get_state data)) fd), 1⟩ :=
  rfl

/-- C2: the claim as stated is false on the code. The /feedback endpoint
passes the current state as next_state, so the update applied on this
input writes 1.4 = 0 + 0.1·(5 + 0.9·max(10,0) − 0), not the simplified
0.5 = 0 + 0.1·5. -/
theorem claim_C2_counterexample :
    qget (fetch_q (feedback_rl_update c2Table c2Data 1 0) (get_state c2Data)) 1 = 1.4 ∧
    qget (fetch_q c2Table (get_state c2Data)) 1
        + ALPHA * feedback_reward (calculate_regret 1 0 c2Data) = 0.5 ∧
    (1.4 : ℚ) ≠ 0.5 := by
  have hstate : get_state c2Data = ⟨"low", "low", "wheat", "cri", "low"⟩ := by decide
  have hregret : calculate_regret 1 0 c2Data = 1 := by
    rw [calculate_regret_closed_form 1 0 c2Data (by norm_num)]
    norm_num [ind, missedIrrigationCond, highMoistureCond, rainPenaltyCond,
      diseasePenaltyCond, pulsesMult, riceMult, c2Data]
    simp
  have hfetch : fetch_q c2Table ⟨"low", "low", "wheat", "cri", "low"⟩ = (10, 0) := by
    decide
  refine ⟨?_, ?_, by norm_num⟩
  · rw [feedback_rl_update_eq, hstate, hregret, hfetch]
    have hmax : max (10 : ℚ) 0 = 10 := max_eq_left (by norm_num)
    have hnew : qget ((10 : ℚ), (0 : ℚ)) 1 + ALPHA * (feedback_reward 1
        + GAMMA * max ((10 : ℚ), (0 : ℚ)).1 ((10 : ℚ), (0 : ℚ)).2
        - qget ((10 : ℚ), (0 : ℚ)) 1) = 1.4 := by
      norm_num [qget, ALPHA, GAMMA, feedback_reward, hmax]
    rw [hnew]
    simp [upsert, fetch_q, qget, applyRow, c2Table]
  · rw [hstate, hregret, hfetch]
    norm_num [qget, ALPHA, feedback_reward]

/-- C2 (amended): for every /feedback call the RL update applied is the
full Q-learning path with next_state equal to the current state: the new
Q-value upserted for (state, action_taken) is
q + α·(reward + γ·max over the same state's Q-values − q) with α = 0.1
and γ = 0.9 — not the simplified q + α·reward path. -/
theorem claim_C2 (tbl : List QRow) (data : FarmData) (fd ao : ℕ) :
    feedback_rl_update tbl data fd ao =
      upsert tbl ⟨get_state data, fd,
        qget (fetch_q tbl (get_state data)) fd
          + ALPHA * (feedback_reward (calculate_regret fd ao data)
            + GAMMA * max (fetch_q tbl (get_state data)).1 (fetch_q tbl (get_state data)).2
            - qget (fetch_q tbl (get_state data)) fd), 1⟩ :=
  feedback_rl_update_eq tbl data fd ao

/-- Every row of an upserted table is either an original row or the
upserted row. -/
theorem mem_upsert (tbl : List QRow) (r x : QRow) (hx : x ∈ upsert tbl r) :
    x ∈ tbl ∨ x = r := by
  unfold upsert at hx
  split_ifs at hx with hc
  · rcases List.mem_map.mp hx with ⟨y, hy, hxy⟩
    by_cases hm : y.state = r.state ∧ y.action = r.action
    · rw [if_pos hm] at hxy
      exact Or.inr hxy.symm
    · rw [if_neg hm] at hxy
      exact Or.inl (hxy ▸ hy)
  · rcases List.mem_append.mp hx with hy | hy
    · exact Or.inl hy
    · exact Or.inr (List.mem_singleton.mp hy)

/-- A row of an upserted table that matches the upserted key is the
upserted row itself (matching originals are replaced, and no match means
the original rows do not carry the key). -/
theorem upsert_key_eq (tbl : List QRow) (r x : QRow) (hx : x ∈ upsert tbl r)
    (h1 : x.state = r.state) (h2 : x.action = r.action) : x = r := by
  unfold upsert at hx
  split_ifs at hx with hc
  · rcases List.mem_map.mp hx with ⟨y, hy, hxy⟩
    by_cases hm : y.state = r.state ∧ y.action = r.action
    · rw [if_pos hm] at hxy
      exact hxy.symm
    · rw [if_neg hm] at hxy
      exact absurd ⟨hxy ▸ h1, hxy ▸ h2⟩ hm
  · rcases List.mem_append.mp hx with hy | hy
    · exact absurd (List.any_eq_true.mpr ⟨x, hy, by simp [h1, h2]⟩) hc
    · exact List.mem_singleton.mp hy

/-- A single `update_q_table` call leaves every row with the updated key
carrying visit_count 1. -/
theorem update_q_table_visits (tbl : List QRow) (s : RLState) (a : ℕ) (rw : ℚ)
    (ns : Option RLState) :
    ∀ x ∈ update_q_table tbl s a rw ns, x.state = s → x.action = a → x.visit_count = 1 := by
  intro x hx h1 h2
  simp only [update_q_table] at hx
  rw [upsert_key_eq _ _ _ hx h1 h2]

/-- Rows with visit_count 1 at a key stay at visit_count 1 across any
further sequence of updates (upserted rows always carry visit_count 1). -/
theorem apply_updates_visits_stable (us : List UpdateCall) (tbl : List QRow)
    (s : RLState) (a : ℕ)
    (h : ∀ x ∈ tbl, x.state = s → x.action = a → x.visit_count = 1) :
    ∀ x ∈ apply_updates tbl us, x.state = s → x.action = a → x.visit_count = 1 := by
  induction us generalizing tbl with
  | nil => exact h
  | cons u rest ih =>
    refine ih _ ?_
    intro x hx h1 h2
    simp only [update_q_table] at hx
    rcases mem_upsert _ _ _ hx with hmem | rfl
    · exact h x hmem h1 h2
    · rfl

/-- C10: the RL updater writes visit_count 1 on every upsert and never
reads or increments the stored count, so after any sequence of updates
that touched the key (s, a) at least once, every stored row with that key
has visit_count exactly 1. -/
theorem claim_C10 (tbl : List QRow) (us : List UpdateCall) (s : RLState) (a : ℕ)
    (hmem : ∃ u ∈ us, u.state = s ∧ u.action = a) :
    ∀ x ∈ apply_updates tbl us, x.state = s → x.action = a → x.visit_count = 1 := by
  rcases hmem with ⟨u, hu, hk⟩
  rcases List.append_of_mem hu with ⟨l1, l2, rfl⟩
  intro x hx h1 h2
  unfold apply_updates at hx
  rw [List.foldl_append, List.foldl_cons] at hx
  refine apply_updates_visits_stable l2 _ s a ?_ x hx h1 h2
  rw [← hk.1, ← hk.2]
  exact update_q_table_visits _ u.state u.action u.reward u.next_state

/-- With a successful store read, `choose_action` always returns an
action. -/
theorem choose_action_ok (explore : Bool) (ra : ℕ) (tbl : List QRow) (s : RLState) :
    ∃ act, choose_action explore ra true tbl s = Except.ok act := by
  cases explore
  · exact ⟨_, choose_action_exploit ra tbl s⟩
  · exact ⟨ra, rfl⟩

/-- C5: for every SensorReading with rainfall_mm ≥ 80, `decide_action`
returns decision 0 with the heavy-rainfall reason, regardless of every
other field, of the ML prediction and of the RL-chosen action. -/
theorem claim_C5 (explore : Bool) (ra : ℕ) (sink_ok : Bool) (tbl : List QRow)
    (log : List PenaltyRecord) (ml : ℕ) (data : FarmData)
    (h : data.rainfall_mm ≥ 80) :
    decide_action explore ra true sink_ok tbl log ml data =
      Except.ok (⟨0, "Recent heavy rainfall detected"⟩, log) := by
  obtain ⟨act, hact⟩ := choose_action_ok explore ra tbl (get_state data)
  simp only [decide_action, hact, if_pos h]

/-- Witness for C5 on a heavy-rain reading. -/
theorem claim_C5_witness :
    decide_action true 0 true true [] [] 1 ⟨"rice", "tillering", 30, 95, "high", "low"⟩
      = Except.ok (⟨0, "Recent heavy rainfall detected"⟩, []) :=
  claim_C5 true 0 true [] [] 1 ⟨"rice", "tillering", 30, 95, "high", "low"⟩ (by norm_num)

/-- C6: the claim as stated is false on the code. For crop=pulses at
soil_moisture_pct=61 with rainfall_mm=100 (≥ 80), `decide_action` returns
decision 0 but with the heavy-rainfall reason, which does not mention
waterlogging. -/
theorem claim_C6_counterexample :
    decide_action true 0 true true [] [] 1 ⟨"pulses", "tillering", 61, 100, "low", "low"⟩
        = Except.ok (⟨0, "Recent heavy rainfall detected"⟩, []) ∧
      mentionsWaterlogging "Recent heavy rainfall detected" = false := by
  constructor
  · rfl
  · decide

/-- C6 (amended): for every SensorReading with crop=pulses and
soil_moisture_pct=61 — for any disease risk and growth stage, including
critical growth stages — `decide_action` returns decision 0; the reason
mentions waterlogging whenever rainfall_mm < 80, while for
rainfall_mm ≥ 80 the heavy-rainfall rule fires first and gives its own
reason. -/
theorem claim_C6 (explore : Bool) (ra : ℕ) (sink_ok : Bool) (tbl : List QRow)
    (log : List PenaltyRecord) (ml : ℕ) (data : FarmData)
    (hcrop : data.crop = "pulses") (hsm : data.soil_moisture_pct = 61) :
    (data.rainfall_mm < 80 →
      decide_action explore ra true sink_ok tbl log ml data
          = Except.ok (⟨0, "Pulses are sensitive to waterlogging"⟩, log) ∧
        mentionsWaterlogging "Pulses are sensitive to waterlogging" = true) ∧
    (data.rainfall_mm ≥ 80 →
      decide_action explore ra true sink_ok tbl log ml data
          = Except.ok (⟨0, "Recent heavy rainfall detected"⟩, log)) := by
  obtain ⟨act, hact⟩ := choose_action_ok explore ra tbl (get_state data)
  constructor
  · intro hrain
    refine ⟨?_, by decide⟩
    have h1 : ¬ data.rainfall_mm ≥ 80 := not_le.mpr hrain
    have h2 : ¬ data.soil_moisture_pct ≥ 65 := by rw [hsm]; norm_num
    have h3 : data.crop = "pulses" ∧ data.soil_moisture_pct > 60 := by
      rw [hsm]; exact ⟨hcrop, by norm_num⟩
    simp only [decide_action, hact, if_neg h1, if_neg h2, if_pos h3]
  · intro hrain
    simp only [decide_action, hact, if_pos hrain]

/-- Witness for C6 (amended) on a pulses reading at 61% moisture with
light rain during a critical growth stage. -/
theorem claim_C6_witness :
    decide_action true 0 true true [] [] 1 ⟨"pulses", "tillering", 61, 10, "low", "low"⟩
        = Except.ok (⟨0, "Pulses are sensitive to waterlogging"⟩, []) ∧
      mentionsWaterlogging "Pulses are sensitive to waterlogging" = true :=
  (claim_C6 true 0 true [] [] 1 ⟨"pulses", "tillering", 61, 10, "low", "low"⟩
    rfl rfl).1 (by norm_num)

/-- Witness for C10: after a single update of the key, the stored row for
that key has visit_count 1. -/
theorem claim_C10_witness :
    (⟨⟨"low", "low", "rice", "cri", "low"⟩, 1,
        qget (fetch_q [] ⟨"low", "low", "rice", "cri", "low"⟩) 1 + ALPHA * 0, 1⟩ : QRow).visit_count
      = 1 :=
  claim_C10 [] [⟨⟨"low", "low", "rice", "cri", "low"⟩, 1, 0, none⟩]
    ⟨"low", "low", "rice", "cri", "low"⟩ 1
    ⟨⟨⟨"low", "low", "rice", "cri", "low"⟩, 1, 0, none⟩, by simp, rfl, rfl⟩
    _ (List.mem_singleton_self _) rfl rfl

end Agritech
